import Mathlib

/-!
Shallow embedding of the admissions-intake service in
`src/server/src/main.rs` (actix-web + sqlite).

Modelling conventions:
* `f32`/`f64` GPA values are modelled as `ℚ`.  The `f32` literal `3.2` in
  `calculate_eligibility` rounds to `13421773/2^22`; no `f32` value lies
  strictly between `16/5` and that literal, so on `f32`-representable
  inputs the comparison `gpa <= 3.2_f32` agrees with the rational
  comparison against `(3.2 : ℚ) = 16/5` used here.
* `i16`/`i32`/`i64` fields are modelled as `Int` (no arithmetic in the
  program approaches the machine bounds).
* `Utc::now()` is modelled by an explicit `today : Date` parameter.
* The sqlite table `form_data` is modelled as a `List Row`; the generated
  `last_insert_rowid` of the model store is `db.length + 1`.
* Fallible external calls (bcrypt hashing, sqlite statements) are modelled
  by explicit success flags / `Except` results threaded into the
  operations, mirroring the `match ... { Ok/Err }` structure of the code.
-/

/-- A calendar date, as produced by chrono date parsing: `year()` is a
signed year, `month()` and `day()` are 1-based. -/
structure Date where
  year : Int
  month : Nat
  day : Nat
deriving DecidableEq

/-- Split a character list at every `-` character (the separators of the
`%Y-%m-%d` format). -/
def splitDash : List Char → List (List Char)
  | [] => [[]]
  | c :: cs =>
    if c = '-' then [] :: splitDash cs
    else
      match splitDash cs with
      | [] => [[c]]
      | g :: gs => (c :: g) :: gs

/-- Accumulate decimal digits; any non-digit character aborts the parse. -/
def parseDigitsAux : Nat → List Char → Option Nat
  | acc, [] => some acc
  | acc, c :: cs =>
    if c.isDigit then parseDigitsAux (10 * acc + (c.toNat - 48)) cs
    else none

/-- Parse a nonempty all-digit character list as a natural number. -/
def parseDigits : List Char → Option Nat
  | [] => none
  | cs => parseDigitsAux 0 cs

def isLeapYear (y : Nat) : Bool :=
  (y % 4 == 0 && y % 100 != 0) || y % 400 == 0

def daysInMonth (y : Nat) (m : Nat) : Nat :=
  if m = 2 then (if isLeapYear y then 29 else 28)
  else if m = 4 ∨ m = 6 ∨ m = 9 ∨ m = 11 then 30
  else 31

/-- Model of `NaiveDate::parse_from_str(dob, "%Y-%m-%d")`: three dash
separated decimal fields forming a valid calendar date.  (The model
restricts `%Y` to unsigned years; the claims quantify only over the
parse result, never over the fine grammar of chrono.) -/
def parseDate (s : String) : Option Date :=
  match splitDash s.data with
  | [ys, ms, ds] =>
    match parseDigits ys, parseDigits ms, parseDigits ds with
    | some y, some m, some d =>
      if 1 ≤ m ∧ m ≤ 12 ∧ 1 ≤ d ∧ d ≤ daysInMonth y m then
        some ⟨(y : Int), m, d⟩
      else none
    | _, _, _ => none
  | _ => none

/-- Embedding of `calculate_age` (main.rs lines 65-80): year difference,
decremented when the birthday has not yet occurred this year; `None` when
the date string does not parse. -/
def calculate_age (today : Date) (dob : String) : Option Int :=
  match parseDate dob with
  | some birth_date =>
    let age := today.year - birth_date.year
    some (if today.month < birth_date.month ∨
            (today.month = birth_date.month ∧ today.day < birth_date.day)
          then age - 1 else age)
  | none => none

/-- Embedding of `calculate_eligibility` (main.rs lines 82-88):
`1` (ineligible) when any threshold fails, `0` (eligible) otherwise. -/
def calculate_eligibility (gpa : ℚ) (credit_hours : Int) (age : Int) : Int :=
  if gpa ≤ 3.2 ∨ credit_hours ≤ 12 ∨ age ≤ 23 then 1 else 0

/-- Modelled from the spec: the bcrypt crate (`hash`/`verify`) is an
external dependency, not part of src/.  A stored credential is either a
well-formed bcrypt string (cost, salt, digest) or a malformed string.
The digest is idealized as collision-free, represented by the plaintext
itself (one-wayness is not a claim under verification here). -/
inductive StoredHash where
  | wellFormed (cost : Nat) (salt : Nat) (digest : String)
  | malformed (raw : String)
deriving DecidableEq

/-- Modelled from the spec: `bcrypt::hash(p, DEFAULT_COST)` with the
salt drawn by the library, passed here as an explicit parameter.
`DEFAULT_COST` is 12. -/
def bcryptHashM (salt : Nat) (p : String) : StoredHash :=
  .wellFormed 12 salt p

/-- Modelled from the spec: `bcrypt::verify(p, stored)`: an error only on
a malformed stored hash; otherwise `Ok` of whether the plaintext
reproduces the digest. -/
def bcryptVerify (p : String) (h : StoredHash) : Except Unit Bool :=
  match h with
  | .wellFormed _ _ d => .ok (d == p)
  | .malformed _ => .error ()

/-- Embedding of the `FormData` struct (main.rs lines 11-25).  Note it
has no `status` field: a caller cannot supply a status. -/
structure FormData where
  first_name : String
  last_name : String
  student_id : String
  gender : String
  dob : String
  college_year : String
  total_credits : Int
  phone_number : String
  email : String
  password : Option String
  role : Int
  gpa : ℚ
deriving DecidableEq

/-- A row of the sqlite table `form_data`: the submitted fields plus the
stored (hashed) password and the computed `status`. -/
structure Row where
  first_name : String
  last_name : String
  student_id : String
  gender : String
  dob : String
  college_year : String
  total_credits : Int
  phone_number : String
  email : String
  password : Option StoredHash
  status : Int
  role : Int
  gpa : ℚ
deriving DecidableEq

/-- Embedding of the `LoginData` struct (main.rs lines 34-38). -/
structure LoginData where
  email : String
  password : Option String
deriving DecidableEq

/-- Embedding of the `UserData` struct (main.rs lines 41-46): the only
fields a successful login returns. -/
structure UserData where
  email : String
  status : Option Int
  role : Option Int
deriving DecidableEq

/-- The success payload built by `login` from a matching row. -/
def userDataOf (r : Row) : UserData :=
  { email := r.email, status := some r.status, role := some r.role }

/-- Caller-visible result of `submit_form`: HTTP 200 with a message and
`last_insert_rowid`, or HTTP 500 with a message. -/
inductive SubmitResult where
  | ok (message : String) (data_id : Int)
  | serverError (message : String)
deriving DecidableEq

/-- Caller-visible result of `login`: HTTP 200 with a message and a
`UserData` payload, HTTP 401, or HTTP 500, each with its message. -/
inductive LoginResult where
  | ok (message : String) (user : UserData)
  | unauthorized (message : String)
  | serverError (message : String)
deriving DecidableEq

/-- Caller-visible result of `update_applicant_status`. -/
inductive StatusResult where
  | ok (message : String)
  | serverError (message : String)
deriving DecidableEq

/-- The age value `submit_form` feeds to the eligibility engine
(main.rs line 144): `calculate_age(&form_data.dob).unwrap_or(0)`. -/
def submitAge (today : Date) (dob : String) : Int :=
  (calculate_age today dob).getD 0

/-- The row built by `submit_form` (main.rs lines 128-165): password
hashed, age computed from `dob` with `unwrap_or(0)`, status computed by
`calculate_eligibility`; every other column copied from the form. -/
def newRow (today : Date) (salt : Nat) (form : FormData) : Row :=
  { first_name := form.first_name
    last_name := form.last_name
    student_id := form.student_id
    gender := form.gender
    dob := form.dob
    college_year := form.college_year
    total_credits := form.total_credits
    phone_number := form.phone_number
    email := form.email
    password := some (bcryptHashM salt (form.password.getD ""))
    status := calculate_eligibility form.gpa form.total_credits
                (submitAge today form.dob)
    role := form.role
    gpa := form.gpa }

/-- Embedding of `submit_form` (main.rs lines 128-188).  `hashOk` models
whether `bcrypt::hash` succeeds and `insertOk` whether the INSERT
statement succeeds; each failure returns HTTP 500 with the message from
the code and leaves the store unchanged. -/
def submit_form (today : Date) (salt : Nat) (hashOk : Bool) (insertOk : Bool)
    (db : List Row) (form : FormData) : List Row × SubmitResult :=
  if hashOk then
    if insertOk then
      (db ++ [newRow today salt form],
       .ok "Form submitted successfully" ((db.length : Int) + 1))
    else
      (db, .serverError "Failed to submit form. Please try again later.")
  else
    (db, .serverError "Failed to process form due to a server error")

/-- The UPDATE statement of `update_applicant_status` (main.rs lines
98-105): set `status = 2` on every row whose `student_id` matches. -/
def setAccepted (db : List Row) (sid : String) : List Row :=
  db.map fun r => if r.student_id = sid then { r with status := 2 } else r

/-- Embedding of `update_applicant_status` (main.rs lines 91-125).
`dbOk` models whether the UPDATE statement succeeds; the `Ok` branch
returns success whether or not any row matched. -/
def update_applicant_status (dbOk : Bool) (db : List Row) (sid : String) :
    List Row × StatusResult :=
  if dbOk then
    (setAccepted db sid, .ok "Applicant status updated to accepted")
  else
    (db, .serverError "Failed to update applicant status. Please try again later.")

/-- Embedding of `login` (main.rs lines 191-268).  `dbOk` models whether
the SELECT succeeds; the row lookup is `fetch_optional` by email. -/
def login (dbOk : Bool) (db : List Row) (ld : LoginData) : LoginResult :=
  if dbOk then
    match db.find? (fun r => r.email == ld.email) with
    | some user =>
      match ld.password, user.password with
      | some login_password, some user_password =>
        match bcryptVerify login_password user_password with
        | .ok valid =>
          if valid then .ok "Login successful" (userDataOf user)
          else .unauthorized "Invalid email or password"
        | .error _ => .serverError "Internal server error"
      | _, _ => .unauthorized "Invalid email or password"
    | none => .unauthorized "Invalid email or password"
  else .serverError "Internal server error"

/-- A concrete applicant row used by several witnesses. -/
def sampleRow : Row :=
  { first_name := "Ada"
    last_name := "L"
    student_id := "s1"
    gender := "f"
    dob := "2000-01-01"
    college_year := "senior"
    total_credits := 20
    phone_number := "555"
    email := "ada@x.com"
    password := some (bcryptHashM 7 "secret")
    status := 0
    role := 0
    gpa := 7/2 }

/-- `sampleRow` with no stored password. -/
def sampleRowNoPw : Row := { sampleRow with password := none }

/-- A concrete form whose `dob` does not parse, with passing gpa and
credits. -/
def sampleBadDobForm : FormData :=
  { first_name := "Ada"
    last_name := "L"
    student_id := "s9"
    gender := "f"
    dob := "once upon"
    college_year := "senior"
    total_credits := 100
    phone_number := "555"
    email := "z@x.com"
    password := some "pw"
    role := 0
    gpa := 4 }

theorem setAccepted_eq_self (db : List Row) (sid : String)
    (h : ∀ r ∈ db, r.student_id ≠ sid) : setAccepted db sid = db := by
  induction db with
  | nil => rfl
  | cons a l ih =>
    have ha : a.student_id ≠ sid := h a (by simp)
    have hl : ∀ r ∈ l, r.student_id ≠ sid := fun r hr => h r (by simp [hr])
    have ht := ih hl
    simp only [setAccepted, List.map_cons, if_neg ha] at ht ⊢
    rw [ht]

theorem setAccepted_status (db : List Row) (sid : String) :
    ∀ r ∈ setAccepted db sid, r.student_id = sid → r.status = 2 := by
  intro r hr
  simp only [setAccepted, List.mem_map] at hr
  obtain ⟨a, _, rfl⟩ := hr
  by_cases h : a.student_id = sid <;> simp [h]

theorem setAccepted_idem (db : List Row) (sid : String) :
    setAccepted (setAccepted db sid) sid = setAccepted db sid := by
  simp only [setAccepted, List.map_map]
  refine List.map_congr_left ?_
  intro a _
  by_cases h : a.student_id = sid <;> simp [Function.comp, h]

/-- Claim C1: `calculate_eligibility` returns Ineligible (1) iff
`gpa <= 3.2` or `credit_hours <= 12` or `age <= 23`, and Eligible (0)
otherwise; all three thresholds are strict lower bounds, so the boundary
inputs behave as: gpa 3.2 / 13 credits / age 24 is Ineligible, and
gpa 3.3 / 13 credits / age 24 is Eligible. -/
theorem C1_calculate_eligibility :
    ∀ (gpa : ℚ) (credit_hours age : Int),
      (calculate_eligibility gpa credit_hours age = 1 ↔
        (gpa ≤ 3.2 ∨ credit_hours ≤ 12 ∨ age ≤ 23)) ∧
      (calculate_eligibility gpa credit_hours age = 0 ↔
        ¬(gpa ≤ 3.2 ∨ credit_hours ≤ 12 ∨ age ≤ 23)) ∧
      calculate_eligibility 3.2 13 24 = 1 ∧
      calculate_eligibility 3.3 13 24 = 0 := by
  intro gpa credit_hours age
  refine ⟨?_, ?_, by norm_num [calculate_eligibility],
    by norm_num [calculate_eligibility]⟩
  · by_cases h : gpa ≤ 3.2 ∨ credit_hours ≤ 12 ∨ age ≤ 23 <;>
      simp [calculate_eligibility, h]
  · by_cases h : gpa ≤ 3.2 ∨ credit_hours ≤ 12 ∨ age ≤ 23 <;>
      simp [calculate_eligibility, h]

/-- Claim C2: when the `dob` string parses, `calculate_age` returns the
calendar-year difference, decremented by one when the current month/day
precedes the birth month/day; when it does not parse, the age used by
the submit operation is 0 rather than an error. -/
theorem C2_calculate_age :
    ∀ (today : Date) (dob : String),
      (∀ b, parseDate dob = some b →
        calculate_age today dob =
          some (if today.month < b.month ∨
                  (today.month = b.month ∧ today.day < b.day)
                then today.year - b.year - 1 else today.year - b.year)) ∧
      (parseDate dob = none → submitAge today dob = 0) := by
  intro today dob
  constructor
  · intro b hb
    simp [calculate_age, hb]
  · intro hn
    simp [submitAge, calculate_age, hn]

theorem C2_calculate_age_witness :
    calculate_age ⟨2026, 10, 12⟩ "2000-12-31" = some 25 ∧
    submitAge ⟨2026, 10, 12⟩ "not-a-date" = 0 := by
  constructor
  · have h := (C2_calculate_age ⟨2026, 10, 12⟩ "2000-12-31").1
      ⟨2000, 12, 31⟩ (by decide)
    rw [h]; decide
  · exact (C2_calculate_age ⟨2026, 10, 12⟩ "not-a-date").2 (by decide)

/-- Claim C3: the status stored at creation is exactly the eligibility
decision, 0 or 1, never 2; the form carries no status field and the new
row computes its status solely by `calculate_eligibility`. -/
theorem C3_submit_status_is_engine_decision :
    ∀ (today : Date) (salt : Nat) (db : List Row) (form : FormData),
      (submit_form today salt true true db form).1 =
        db ++ [newRow today salt form] ∧
      (newRow today salt form).status =
        calculate_eligibility form.gpa form.total_credits
          (submitAge today form.dob) ∧
      ((newRow today salt form).status = 0 ∨
        (newRow today salt form).status = 1) ∧
      (newRow today salt form).status ≠ 2 := by
  intro today salt db form
  have h01 : ∀ (g : ℚ) (c a : Int),
      calculate_eligibility g c a = 0 ∨ calculate_eligibility g c a = 1 := by
    intro g c a
    by_cases h : g ≤ 3.2 ∨ c ≤ 12 ∨ a ≤ 23
    · exact Or.inr (by simp [calculate_eligibility, h])
    · exact Or.inl (by simp [calculate_eligibility, h])
  refine ⟨rfl, rfl, h01 _ _ _, ?_⟩
  rcases h01 form.gpa form.total_credits (submitAge today form.dob) with h | h <;>
    · show calculate_eligibility _ _ _ ≠ 2
      omega

/-- Claim C4: every login failure cause — unknown email, missing
submitted password, missing stored password, or failed verification —
produces the same caller-visible response: HTTP 401 with the message
"Invalid email or password". -/
theorem C4_login_failures_indistinguishable :
    ∀ (db : List Row) (ld : LoginData),
      (db.find? (fun r => r.email == ld.email) = none →
        login true db ld = .unauthorized "Invalid email or password") ∧
      (∀ u, db.find? (fun r => r.email == ld.email) = some u →
        ld.password = none →
        login true db ld = .unauthorized "Invalid email or password") ∧
      (∀ u, db.find? (fun r => r.email == ld.email) = some u →
        u.password = none →
        login true db ld = .unauthorized "Invalid email or password") ∧
      (∀ u lp up, db.find? (fun r => r.email == ld.email) = some u →
        ld.password = some lp → u.password = some up →
        bcryptVerify lp up = .ok false →
        login true db ld = .unauthorized "Invalid email or password") := by
  intro db ld
  refine ⟨?_, ?_, ?_, ?_⟩
  · intro h
    simp [login, h]
  · intro u hu hp
    simp [login, hu, hp]
  · intro u hu hp
    cases hlp : ld.password <;> simp [login, hu, hp, hlp]
  · intro u lp up hu hlp hup hv
    simp [login, hu, hlp, hup, hv]

theorem C4_login_failures_indistinguishable_witness :
    login true [] ⟨"ada@x.com", some "secret"⟩ =
      .unauthorized "Invalid email or password" ∧
    login true [sampleRow] ⟨"ada@x.com", none⟩ =
      .unauthorized "Invalid email or password" ∧
    login true [sampleRowNoPw] ⟨"ada@x.com", some "secret"⟩ =
      .unauthorized "Invalid email or password" ∧
    login true [sampleRow] ⟨"ada@x.com", some "wrong"⟩ =
      .unauthorized "Invalid email or password" := by
  refine ⟨?_, ?_, ?_, ?_⟩
  · exact (C4_login_failures_indistinguishable [] ⟨"ada@x.com", some "secret"⟩).1
      rfl
  · exact (C4_login_failures_indistinguishable [sampleRow]
      ⟨"ada@x.com", none⟩).2.1 sampleRow rfl rfl
  · exact (C4_login_failures_indistinguishable [sampleRowNoPw]
      ⟨"ada@x.com", some "secret"⟩).2.2.1 sampleRowNoPw rfl rfl
  · exact (C4_login_failures_indistinguishable [sampleRow]
      ⟨"ada@x.com", some "wrong"⟩).2.2.2 sampleRow "wrong"
      (bcryptHashM 7 "secret") rfl rfl rfl rfl

/-- Claim C5: accept succeeds whether or not a row with the given
student id exists; an unknown id mutates no row; a known id sets that
row status to 2; and the operation is idempotent. -/
theorem C5_accept_semantics :
    ∀ (db : List Row) (sid : String),
      (update_applicant_status true db sid).2 =
        .ok "Applicant status updated to accepted" ∧
      ((∀ r ∈ db, r.student_id ≠ sid) →
        (update_applicant_status true db sid).1 = db) ∧
      (∀ r ∈ (update_applicant_status true db sid).1,
        r.student_id = sid → r.status = 2) ∧
      update_applicant_status true (update_applicant_status true db sid).1 sid =
        update_applicant_status true db sid := by
  intro db sid
  refine ⟨rfl, ?_, ?_, ?_⟩
  · intro h
    show setAccepted db sid = db
    exact setAccepted_eq_self db sid h
  · intro r hr
    exact setAccepted_status db sid r hr
  · show (setAccepted (setAccepted db sid) sid, _) = (_, _)
    rw [setAccepted_idem]

theorem C5_accept_semantics_witness :
    (update_applicant_status true [sampleRow] "zz").1 = [sampleRow] ∧
    (update_applicant_status true [sampleRow] "s1").2 =
      .ok "Applicant status updated to accepted" ∧
    ({ sampleRow with status := 2 } : Row).status = 2 ∧
    update_applicant_status true
        (update_applicant_status true [sampleRow] "s1").1 "s1" =
      update_applicant_status true [sampleRow] "s1" := by
  refine ⟨?_, ?_, ?_, ?_⟩
  · exact (C5_accept_semantics [sampleRow] "zz").2.1 (by decide)
  · exact (C5_accept_semantics [sampleRow] "s1").1
  · exact (C5_accept_semantics [sampleRow] "s1").2.2.1
      { sampleRow with status := 2 }
      (by show _ ∈ [({ sampleRow with status := 2 } : Row)]
          exact List.mem_singleton.mpr rfl)
      rfl
  · exact (C5_accept_semantics [sampleRow] "s1").2.2.2

/-- Claim C6: submit returns a server error and leaves the store
unchanged when hashing fails or the insert fails, and on success returns
the generated row identifier of the new record. -/
theorem C6_submit_error_handling :
    ∀ (today : Date) (salt : Nat) (db : List Row) (form : FormData),
      submit_form today salt false true db form =
        (db, .serverError "Failed to process form due to a server error") ∧
      submit_form today salt false false db form =
        (db, .serverError "Failed to process form due to a server error") ∧
      submit_form today salt true false db form =
        (db, .serverError "Failed to submit form. Please try again later.") ∧
      submit_form today salt true true db form =
        (db ++ [newRow today salt form],
         .ok "Form submitted successfully" ((db.length : Int) + 1)) := by
  intro today salt db form
  exact ⟨rfl, rfl, rfl, rfl⟩

/-- Claim C7: a successful login returns exactly the applicant email,
status and role — the payload is built by `userDataOf`, which carries no
password field and is determined by email, status and role alone. -/
theorem C7_login_success_payload :
    ∀ (db : List Row) (ld : LoginData) (u : Row) (lp : String)
      (up : StoredHash),
      db.find? (fun r => r.email == ld.email) = some u →
      ld.password = some lp → u.password = some up →
      bcryptVerify lp up = .ok true →
      login true db ld = .ok "Login successful" (userDataOf u) ∧
      userDataOf u =
        { email := u.email, status := some u.status, role := some u.role } ∧
      (∀ r1 r2 : Row, r1.email = r2.email → r1.status = r2.status →
        r1.role = r2.role → userDataOf r1 = userDataOf r2) := by
  intro db ld u lp up hu hlp hup hv
  refine ⟨?_, rfl, ?_⟩
  · simp [login, hu, hlp, hup, hv]
  · intro r1 r2 h1 h2 h3
    simp [userDataOf, h1, h2, h3]

theorem C7_login_success_payload_witness :
    login true [sampleRow] ⟨"ada@x.com", some "secret"⟩ =
      .ok "Login successful" ⟨"ada@x.com", some 0, some 0⟩ := by
  have h := (C7_login_success_payload [sampleRow]
    ⟨"ada@x.com", some "secret"⟩ sampleRow "secret"
    (bcryptHashM 7 "secret") rfl rfl rfl rfl).1
  rw [h]; rfl

/-- Claim C8: in the idealized bcrypt model, verifying a plaintext
against its own hash yields `Ok true`; verifying any other plaintext
yields `Ok false` (a mismatch is a false, not an error); an error arises
only from a malformed stored hash. -/
theorem C8_verify_hash_roundtrip :
    ∀ (salt : Nat) (p p2 raw : String),
      bcryptVerify p (bcryptHashM salt p) = .ok true ∧
      (p2 ≠ p → bcryptVerify p2 (bcryptHashM salt p) = .ok false) ∧
      bcryptVerify p (.malformed raw) = .error () := by
  intro salt p p2 raw
  refine ⟨?_, ?_, rfl⟩
  · simp [bcryptVerify, bcryptHashM]
  · intro h
    simp only [bcryptVerify, bcryptHashM, Except.ok.injEq]
    exact beq_eq_false_iff_ne.mpr fun e => h e.symm

theorem C8_verify_hash_roundtrip_witness :
    bcryptVerify "hunter2" (bcryptHashM 5 "hunter2") = .ok true ∧
    bcryptVerify "wrong" (bcryptHashM 5 "hunter2") = .ok false := by
  obtain ⟨h1, h2, _⟩ := C8_verify_hash_roundtrip 5 "hunter2" "wrong" "x"
  exact ⟨h1, h2 (by decide)⟩

/-- Claim C9: a submit whose `dob` does not parse stores status
Ineligible (1) regardless of gpa and credits, because the defaulted age
0 always fails the age threshold. -/
theorem C9_unparseable_dob_ineligible :
    ∀ (today : Date) (salt : Nat) (db : List Row) (form : FormData),
      parseDate form.dob = none →
      (newRow today salt form).status = 1 ∧
      (submit_form today salt true true db form).1 =
        db ++ [newRow today salt form] := by
  intro today salt db form h
  refine ⟨?_, rfl⟩
  show calculate_eligibility form.gpa form.total_credits
    (submitAge today form.dob) = 1
  have hage : submitAge today form.dob = 0 := by
    simp [submitAge, calculate_age, h]
  rw [hage]
  simp only [calculate_eligibility]
  rw [if_pos (Or.inr (Or.inr (by norm_num)))]

theorem C9_unparseable_dob_ineligible_witness :
    (newRow ⟨2026, 10, 12⟩ 3 sampleBadDobForm).status = 1 :=
  (C9_unparseable_dob_ineligible ⟨2026, 10, 12⟩ 3 [] sampleBadDobForm
    (by decide)).1

/-- Claim C10: a `dob` parsing to a date whose year exceeds the current
year makes `calculate_age` return a negative integer — it neither clamps
to 0 nor fails. -/
theorem C10_future_dob_negative_age :
    ∀ (today : Date) (dob : String) (b : Date),
      parseDate dob = some b → today.year < b.year →
      ∃ a, calculate_age today dob = some a ∧ a < 0 := by
  intro today dob b hp hy
  simp only [calculate_age, hp]
  refine ⟨_, rfl, ?_⟩
  split <;> omega

theorem C10_future_dob_negative_age_witness :
    ∃ a, calculate_age ⟨2026, 10, 12⟩ "3000-01-01" = some a ∧ a < 0 :=
  C10_future_dob_negative_age ⟨2026, 10, 12⟩ "3000-01-01" ⟨3000, 1, 1⟩
    (by decide) (by decide)
